import Mathlib

/-!
Shallow embedding of the native JNI thread-attachment module of
augmented_reality_mobile_application
(src/app/src/main/cpp/jni_thread_helper.cpp and jni_thread_helper.hpp).

The module consists of a process-wide runtime handle (g_jvm), three JNI
entry points (attach, detach, query-is-attached), a RAII scoped token
(JNIThreadHelper) and a guarded-call wrapper (ThreadSafeDetector).

The host runtime (the JVM) is external to the module; it is modelled as a
state carrying the per-thread attachment map, whether it supports the
requested interface version in GetEnv, and whether it currently accepts
AttachCurrentThread requests.  Two counters instrument how many times the
module requested attachment or detachment from the runtime, so that
"no double-attach" and "requests detachment unconditionally" are formal
statements about the state rather than informal readings of the code.
Pointers are modelled as natural numbers with 0 playing nullptr.
-/

/-- jint return code JNI_OK (success). -/
def JNI_OK : Int := 0

/-- jint return code JNI_ERR (generic failure). -/
def JNI_ERR : Int := -1

/-- jint return code JNI_EDETACHED (current thread not attached to the VM). -/
def JNI_EDETACHED : Int := -2

/-- jint return code JNI_EVERSION (requested interface version unsupported). -/
def JNI_EVERSION : Int := -3

/-- The interface version constant JNI_VERSION_1_6 = 0x00010006. -/
def JNI_VERSION_1_6 : Int := 65542

/-- State of the host Java virtual machine, as observed and mutated by the
module through the JavaVM interface.  Threads are identified by naturals.
The counters attachCalls and detachCalls record how many times the module
invoked AttachCurrentThread resp. DetachCurrentThread on the runtime. -/
structure JVMState where
  attached : Nat → Bool
  supportsVersion : Int → Bool
  acceptAttach : Bool
  attachCalls : Nat
  detachCalls : Nat

/-- JavaVM::GetEnv for thread tid: JNI_EVERSION if the requested version is
unsupported, JNI_EDETACHED if the thread is not attached, JNI_OK otherwise.
The env pointer it writes is valid exactly when the result is JNI_OK. -/
def GetEnv (j : JVMState) (tid : Nat) (version : Int) : Int :=
  if j.supportsVersion version = false then JNI_EVERSION
  else if j.attached tid = false then JNI_EDETACHED
  else JNI_OK

/-- JavaVM::AttachCurrentThread for thread tid: if the runtime accepts the
request it marks the thread attached and returns JNI_OK, otherwise it
returns an error and leaves attachment unchanged.  Either way the request
is counted. -/
def AttachCurrentThread (j : JVMState) (tid : Nat) : Int × JVMState :=
  if j.acceptAttach = true then
    (JNI_OK,
     { j with attached := fun t => if t = tid then true else j.attached t,
              attachCalls := j.attachCalls + 1 })
  else
    (JNI_ERR, { j with attachCalls := j.attachCalls + 1 })

/-- JavaVM::DetachCurrentThread for thread tid: marks the thread detached
(detaching an unattached thread is a no-op on the attachment map) and
counts the request. -/
def DetachCurrentThread (j : JVMState) (tid : Nat) : JVMState :=
  { j with attached := fun t => if t = tid then false else j.attached t,
           detachCalls := j.detachCalls + 1 }

/-- The state visible to the module: the process-wide handle g_jvm
(a pointer value, 0 = nullptr, set by JNI_OnLoad) and the runtime state it
refers to. -/
structure World where
  g_jvm : Nat
  jvm : JVMState

/-- JNI_OnLoad from jni_thread_helper.cpp: stores the received runtime
handle in g_jvm and returns JNI_VERSION_1_6. -/
def JNI_OnLoad (w : World) (vm : Nat) : Int × World :=
  (JNI_VERSION_1_6, { w with g_jvm := vm })

/-- Java_com_example_augmented_1mobile_1application_utils_JNIThreadManager_attachCurrentThread
from jni_thread_helper.cpp, run by thread tid: if g_jvm is null return
JNI_FALSE; otherwise GetEnv, and if the thread is detached request
AttachCurrentThread, returning JNI_TRUE on JNI_OK and JNI_FALSE otherwise;
any non-JNI_EDETACHED GetEnv result returns JNI_TRUE (already attached). -/
def JNIThreadManager_attachCurrentThread (w : World) (tid : Nat) : Bool × World :=
  if w.g_jvm = 0 then (false, w)
  else
    let result := GetEnv w.jvm tid JNI_VERSION_1_6
    if result = JNI_EDETACHED then
      let p := AttachCurrentThread w.jvm tid
      if p.1 = JNI_OK then (true, { w with jvm := p.2 })
      else (false, { w with jvm := p.2 })
    else (true, w)

/-- Java_com_example_augmented_1mobile_1application_utils_JNIThreadManager_detachCurrentThread
from jni_thread_helper.cpp, run by thread tid: if g_jvm is set, request
DetachCurrentThread from the runtime unconditionally; otherwise do
nothing. -/
def JNIThreadManager_detachCurrentThread (w : World) (tid : Nat) : World :=
  if w.g_jvm = 0 then w
  else { w with jvm := DetachCurrentThread w.jvm tid }

/-- Java_com_example_augmented_1mobile_1application_utils_JNIThreadManager_isCurrentThreadAttached
from jni_thread_helper.cpp, run by thread tid: JNI_FALSE if g_jvm is null,
otherwise JNI_TRUE exactly when GetEnv returns JNI_OK.  It only calls
GetEnv, so in this embedding it is a pure function of the state. -/
def JNIThreadManager_isCurrentThreadAttached (w : World) (tid : Nat) : Bool :=
  if w.g_jvm = 0 then false
  else decide (GetEnv w.jvm tid JNI_VERSION_1_6 = JNI_OK)

/-- The RAII scoped token of jni_thread_helper.hpp.  jvm_ is the stored
JavaVM pointer (0 = nullptr), env_valid records whether the env_ member is
non-null, attached_ records whether this token itself performed the
attach. -/
structure JNIThreadHelper where
  jvm_ : Nat
  env_valid : Bool
  attached_ : Bool

/-- The JNIThreadHelper constructor, run by thread tid against runtime
state j with pointer argument jvm: with a null pointer it does nothing;
otherwise GetEnv, and on JNI_EDETACHED it requests AttachCurrentThread,
setting attached_ only when that returns JNI_OK.  env_ becomes non-null
exactly when GetEnv returned JNI_OK or the attach request succeeded. -/
def JNIThreadHelper.ctor (jvm : Nat) (j : JVMState) (tid : Nat) :
    JNIThreadHelper × JVMState :=
  if jvm = 0 then ({ jvm_ := jvm, env_valid := false, attached_ := false }, j)
  else
    let result := GetEnv j tid JNI_VERSION_1_6
    if result = JNI_EDETACHED then
      let p := AttachCurrentThread j tid
      if p.1 = JNI_OK then
        ({ jvm_ := jvm, env_valid := true, attached_ := true }, p.2)
      else
        ({ jvm_ := jvm, env_valid := false, attached_ := false }, p.2)
    else
      ({ jvm_ := jvm, env_valid := decide (result = JNI_OK), attached_ := false }, j)

/-- The JNIThreadHelper destructor: requests DetachCurrentThread exactly
when this token performed the attach and its stored pointer is non-null. -/
def JNIThreadHelper.dtor (h : JNIThreadHelper) (j : JVMState) (tid : Nat) :
    JVMState :=
  if h.attached_ = true ∧ h.jvm_ ≠ 0 then DetachCurrentThread j tid else j

/-- JNIThreadHelper::isValid, true when the env_ member is non-null. -/
def JNIThreadHelper.isValid (h : JNIThreadHelper) : Bool :=
  h.env_valid

/-- The runtime state after a full scoped-token lifetime on thread tid:
construct a JNIThreadHelper, then destroy it. -/
def scopedTokenLifetime (jvm : Nat) (j : JVMState) (tid : Nat) : JVMState :=
  let p := JNIThreadHelper.ctor jvm j tid
  JNIThreadHelper.dtor p.1 p.2 tid

/-- ThreadSafeDetector::detectWithThreadSafety from jni_thread_helper.hpp,
run by thread tid while holding the detector mutex.  The detector callback
is modelled as a function into Except (a thrown std::exception is an
error value); dflt is the value-initialized ResultType.  The helper token
is constructed on entry and destroyed on every exit path.  If the token is
invalid the default result is returned; otherwise the callback runs and
any error it raises is caught and converted to the default result. -/
def ThreadSafeDetector.detectWithThreadSafety {Frame Result Err : Type}
    (jvm : Nat) (j : JVMState) (tid : Nat)
    (detect : Frame → Except Err Result) (dflt : Result) (frame : Frame) :
    Result × JVMState :=
  let p := JNIThreadHelper.ctor jvm j tid
  if p.1.isValid = false then
    (dflt, JNIThreadHelper.dtor p.1 p.2 tid)
  else
    match detect frame with
    | Except.ok r => (r, JNIThreadHelper.dtor p.1 p.2 tid)
    | Except.error _ => (dflt, JNIThreadHelper.dtor p.1 p.2 tid)

/-- Runs n attach calls on thread tid in sequence, collecting the returned
booleans and the final state. -/
def attachIter (tid : Nat) : Nat → World → List Bool × World
  | 0, w => ([], w)
  | n + 1, w =>
      let p := JNIThreadManager_attachCurrentThread w tid
      let q := attachIter tid n p.2
      (p.1 :: q.1, q.2)

/-- Sample runtime state: every thread attached, version supported. -/
def jvmAttachedAll : JVMState :=
  { attached := fun _ => true, supportsVersion := fun _ => true,
    acceptAttach := true, attachCalls := 0, detachCalls := 0 }

/-- Sample runtime state: no thread attached, version supported, runtime
accepts attachment. -/
def jvmDetachedAll : JVMState :=
  { attached := fun _ => false, supportsVersion := fun _ => true,
    acceptAttach := true, attachCalls := 0, detachCalls := 0 }

/-- Sample runtime state: no thread attached and the interface version is
unsupported, so GetEnv answers JNI_EVERSION. -/
def jvmNoVersion : JVMState :=
  { attached := fun _ => false, supportsVersion := fun _ => false,
    acceptAttach := true, attachCalls := 0, detachCalls := 0 }

/-- Sample runtime state: no thread attached and the runtime rejects
attachment requests. -/
def jvmRejecting : JVMState :=
  { attached := fun _ => false, supportsVersion := fun _ => true,
    acceptAttach := false, attachCalls := 0, detachCalls := 0 }

/-- Sample world with the handle set over jvmAttachedAll. -/
def worldAttached : World := { g_jvm := 1, jvm := jvmAttachedAll }

/-- Sample world with the handle set over jvmDetachedAll. -/
def worldDetached : World := { g_jvm := 1, jvm := jvmDetachedAll }

/-- Sample world with the handle set over jvmNoVersion. -/
def worldNoVersion : World := { g_jvm := 1, jvm := jvmNoVersion }

/-- Sample world with the handle set over jvmRejecting. -/
def worldRejecting : World := { g_jvm := 1, jvm := jvmRejecting }

/-- Sample world with the handle still null (before JNI_OnLoad). -/
def worldUnloaded : World := { g_jvm := 0, jvm := jvmDetachedAll }

/-- Sample detector callback that always raises. -/
def detectFail : Nat → Except Unit Nat := fun _ => Except.error ()

/-- Helper: when the handle is set, the version is supported and the thread
is already attached, the attach entry point returns true and changes
nothing. -/
theorem attach_noop_of_attached (w : World) (tid : Nat)
    (hg : w.g_jvm ≠ 0) (hv : w.jvm.supportsVersion JNI_VERSION_1_6 = true)
    (ha : w.jvm.attached tid = true) :
    JNIThreadManager_attachCurrentThread w tid = (true, w) := by
  simp [JNIThreadManager_attachCurrentThread, GetEnv, hg, hv, ha,
        JNI_OK, JNI_EDETACHED]

/-- Helper: iterating the attach entry point on an already-attached thread
returns true every time and leaves the state fixed. -/
theorem attachIter_noop_of_attached (tid : Nat) (n : Nat) (w : World)
    (hg : w.g_jvm ≠ 0) (hv : w.jvm.supportsVersion JNI_VERSION_1_6 = true)
    (ha : w.jvm.attached tid = true) :
    attachIter tid n w = (List.replicate n true, w) := by
  induction n with
  | zero => simp [attachIter]
  | succ k ih =>
      simp [attachIter, attach_noop_of_attached w tid hg hv ha, ih,
            List.replicate]

/-- Helper: the first attach on a detached thread, with the handle set and
an accepting runtime, returns true and records exactly one attach request
with the thread marked attached. -/
theorem attach_first (w : World) (tid : Nat)
    (hg : w.g_jvm ≠ 0) (hv : w.jvm.supportsVersion JNI_VERSION_1_6 = true)
    (hacc : w.jvm.acceptAttach = true) (hdet : w.jvm.attached tid = false) :
    JNIThreadManager_attachCurrentThread w tid =
      (true, { w with jvm := { w.jvm with
        attached := fun t => if t = tid then true else w.jvm.attached t,
        attachCalls := w.jvm.attachCalls + 1 } }) := by
  simp [JNIThreadManager_attachCurrentThread, GetEnv, AttachCurrentThread,
        hg, hv, hacc, hdet, JNI_OK, JNI_EDETACHED, JNI_EVERSION]

/-- Helper: the attach entry point never changes the g_jvm handle. -/
theorem attach_preserves_g_jvm (w : World) (tid : Nat) :
    (JNIThreadManager_attachCurrentThread w tid).2.g_jvm = w.g_jvm := by
  by_cases hg : w.g_jvm = 0
  · simp [JNIThreadManager_attachCurrentThread, hg]
  · by_cases he : GetEnv w.jvm tid JNI_VERSION_1_6 = JNI_EDETACHED
    · by_cases ha : (AttachCurrentThread w.jvm tid).1 = JNI_OK
      · simp [JNIThreadManager_attachCurrentThread, hg, he, ha]
      · simp [JNIThreadManager_attachCurrentThread, hg, he, ha]
    · simp [JNIThreadManager_attachCurrentThread, hg, he]

/-- Helper: the detach entry point never changes the g_jvm handle. -/
theorem detach_preserves_g_jvm (w : World) (tid : Nat) :
    (JNIThreadManager_detachCurrentThread w tid).g_jvm = w.g_jvm := by
  by_cases hg : w.g_jvm = 0
  · simp [JNIThreadManager_detachCurrentThread, hg]
  · simp [JNIThreadManager_detachCurrentThread, hg]

/-- Claim C1: releasing a scoped attachment token detaches the thread only
if that token itself performed the attach: a token created on an
already-attached thread leaves the thread attached after release, and a
token created on a previously-unattached thread (attached by the token,
with the version supported and the runtime accepting) leaves the thread
detached after release. -/
theorem C1_scoped_token_ownership
    (jvm : Nat) (j j1 : JVMState) (tid : Nat) (hjvm : jvm ≠ 0)
    (hatt : j.attached tid = true)
    (hdet : j1.attached tid = false)
    (hver : j1.supportsVersion JNI_VERSION_1_6 = true)
    (hacc : j1.acceptAttach = true) :
    (scopedTokenLifetime jvm j tid).attached tid = true ∧
    (scopedTokenLifetime jvm j1 tid).attached tid = false := by
  constructor
  · unfold scopedTokenLifetime
    cases hv : j.supportsVersion JNI_VERSION_1_6 <;>
      simp [JNIThreadHelper.ctor, JNIThreadHelper.dtor, GetEnv, hjvm, hv, hatt,
            JNI_EVERSION, JNI_EDETACHED, JNI_OK]
  · unfold scopedTokenLifetime
    simp [JNIThreadHelper.ctor, JNIThreadHelper.dtor, GetEnv,
          AttachCurrentThread, DetachCurrentThread, hjvm, hdet, hver, hacc,
          JNI_OK, JNI_ERR, JNI_EDETACHED, JNI_EVERSION]

/-- Witness for C1 at pointer 1, thread 0, over the sample attached and
detached runtime states. -/
theorem C1_scoped_token_ownership_witness :
    (1 : Nat) ≠ 0 ∧ jvmAttachedAll.attached 0 = true ∧
    jvmDetachedAll.attached 0 = false ∧
    jvmDetachedAll.supportsVersion JNI_VERSION_1_6 = true ∧
    jvmDetachedAll.acceptAttach = true ∧
    ((scopedTokenLifetime 1 jvmAttachedAll 0).attached 0 = true ∧
     (scopedTokenLifetime 1 jvmDetachedAll 0).attached 0 = false) :=
  ⟨by decide, rfl, rfl, rfl, rfl,
   C1_scoped_token_ownership 1 jvmAttachedAll jvmDetachedAll 0 (by decide)
     rfl rfl rfl rfl⟩

/-- Claim C2: with the handle set, the version supported and an accepting
runtime, the first attach call on a detached thread attaches it, returns
true and issues exactly one attach request; every later attach call in the
sequence (no intervening detach) returns true and is a no-op on the state,
so no further attach request is ever issued. -/
theorem C2_attach_idempotent (w : World) (tid : Nat) (n : Nat)
    (hg : w.g_jvm ≠ 0) (hv : w.jvm.supportsVersion JNI_VERSION_1_6 = true)
    (hacc : w.jvm.acceptAttach = true) (hdet : w.jvm.attached tid = false) :
    (JNIThreadManager_attachCurrentThread w tid).1 = true ∧
    (JNIThreadManager_attachCurrentThread w tid).2.jvm.attached tid = true ∧
    (JNIThreadManager_attachCurrentThread w tid).2.jvm.attachCalls =
      w.jvm.attachCalls + 1 ∧
    attachIter tid n (JNIThreadManager_attachCurrentThread w tid).2 =
      (List.replicate n true, (JNIThreadManager_attachCurrentThread w tid).2) := by
  have h1 := attach_first w tid hg hv hacc hdet
  refine ⟨by rw [h1], by rw [h1]; simp, by rw [h1], ?_⟩
  apply attachIter_noop_of_attached
  · rw [h1]; exact hg
  · rw [h1]; exact hv
  · rw [h1]; simp

/-- Witness for C2 at the sample detached world, thread 0, three further
calls. -/
theorem C2_attach_idempotent_witness :
    worldDetached.g_jvm ≠ 0 ∧
    worldDetached.jvm.supportsVersion JNI_VERSION_1_6 = true ∧
    worldDetached.jvm.acceptAttach = true ∧
    worldDetached.jvm.attached 0 = false ∧
    ((JNIThreadManager_attachCurrentThread worldDetached 0).1 = true ∧
     (JNIThreadManager_attachCurrentThread worldDetached 0).2.jvm.attached 0 = true ∧
     (JNIThreadManager_attachCurrentThread worldDetached 0).2.jvm.attachCalls =
       worldDetached.jvm.attachCalls + 1 ∧
     attachIter 0 3 (JNIThreadManager_attachCurrentThread worldDetached 0).2 =
       (List.replicate 3 true,
        (JNIThreadManager_attachCurrentThread worldDetached 0).2)) :=
  ⟨by decide, rfl, rfl, rfl,
   C2_attach_idempotent worldDetached 0 3 (by decide) rfl rfl rfl⟩

/-- Claim C3: while g_jvm is null (before JNI_OnLoad), attach returns false
and changes nothing, detach does nothing, and query-is-attached returns
false. -/
theorem C3_null_handle_safety (w : World) (tid : Nat) (hg : w.g_jvm = 0) :
    JNIThreadManager_attachCurrentThread w tid = (false, w) ∧
    JNIThreadManager_detachCurrentThread w tid = w ∧
    JNIThreadManager_isCurrentThreadAttached w tid = false := by
  simp [JNIThreadManager_attachCurrentThread,
        JNIThreadManager_detachCurrentThread,
        JNIThreadManager_isCurrentThreadAttached, hg]

/-- Witness for C3 at the sample unloaded world, thread 0. -/
theorem C3_null_handle_safety_witness :
    worldUnloaded.g_jvm = 0 ∧
    (JNIThreadManager_attachCurrentThread worldUnloaded 0 = (false, worldUnloaded) ∧
     JNIThreadManager_detachCurrentThread worldUnloaded 0 = worldUnloaded ∧
     JNIThreadManager_isCurrentThreadAttached worldUnloaded 0 = false) :=
  ⟨rfl, C3_null_handle_safety worldUnloaded 0 rfl⟩

/-- Claim C4: query-is-attached returns true iff the handle is set and
GetEnv reports a valid environment for the calling thread; it is a pure
function of the state in this embedding (it returns only a boolean).
Immediately after an attach call that returned true (with the version
supported), it returns true; immediately after detach it returns false. -/
theorem C4_is_attached_query (w : World) (tid : Nat) :
    (JNIThreadManager_isCurrentThreadAttached w tid = true ↔
      (w.g_jvm ≠ 0 ∧ GetEnv w.jvm tid JNI_VERSION_1_6 = JNI_OK)) ∧
    (w.jvm.supportsVersion JNI_VERSION_1_6 = true →
      (JNIThreadManager_attachCurrentThread w tid).1 = true →
      JNIThreadManager_isCurrentThreadAttached
        (JNIThreadManager_attachCurrentThread w tid).2 tid = true) ∧
    JNIThreadManager_isCurrentThreadAttached
      (JNIThreadManager_detachCurrentThread w tid) tid = false := by
  refine ⟨?_, ?_, ?_⟩
  · by_cases hg : w.g_jvm = 0
    · simp [JNIThreadManager_isCurrentThreadAttached, hg]
    · simp [JNIThreadManager_isCurrentThreadAttached, hg]
  · intro hv h1
    by_cases hg : w.g_jvm = 0
    · simp [JNIThreadManager_attachCurrentThread, hg] at h1
    · cases hatt : w.jvm.attached tid with
      | true =>
          rw [attach_noop_of_attached w tid hg hv hatt]
          simp [JNIThreadManager_isCurrentThreadAttached, GetEnv, hg, hv, hatt]
      | false =>
          cases hacc : w.jvm.acceptAttach with
          | true =>
              rw [attach_first w tid hg hv hacc hatt]
              simp [JNIThreadManager_isCurrentThreadAttached, GetEnv, hg, hv]
          | false =>
              simp [JNIThreadManager_attachCurrentThread, GetEnv,
                    AttachCurrentThread, hg, hv, hatt, hacc,
                    JNI_OK, JNI_ERR, JNI_EDETACHED, JNI_EVERSION] at h1
  · by_cases hg : w.g_jvm = 0
    · simp [JNIThreadManager_detachCurrentThread,
            JNIThreadManager_isCurrentThreadAttached, hg]
    · cases hv : w.jvm.supportsVersion JNI_VERSION_1_6 <;>
        simp [JNIThreadManager_detachCurrentThread,
              JNIThreadManager_isCurrentThreadAttached, DetachCurrentThread,
              GetEnv, hg, hv, JNI_EVERSION, JNI_EDETACHED, JNI_OK]

/-- Witness for C4: after attach on the sample detached world the query
answers true, and after detach on the sample attached world it answers
false. -/
theorem C4_is_attached_query_witness :
    JNIThreadManager_isCurrentThreadAttached
      (JNIThreadManager_attachCurrentThread worldDetached 0).2 0 = true ∧
    JNIThreadManager_isCurrentThreadAttached
      (JNIThreadManager_detachCurrentThread worldAttached 0) 0 = false :=
  ⟨(C4_is_attached_query worldDetached 0).2.1 rfl (by decide),
   (C4_is_attached_query worldAttached 0).2.2⟩

/-- Claim C5: detectWithThreadSafety never lets a failure cross the
guarded region: if the scoped token is invalid it returns the default
result, and if the invoked work raises an error the error is caught and
the default result is returned.  The wrapper is total and returns a plain
result value, never an error. -/
theorem C5_guarded_call_no_propagation {Frame Result Err : Type}
    (jvm : Nat) (j : JVMState) (tid : Nat)
    (detect : Frame → Except Err Result) (dflt : Result) (frame : Frame) :
    ((JNIThreadHelper.ctor jvm j tid).1.isValid = false →
      (ThreadSafeDetector.detectWithThreadSafety jvm j tid detect dflt
        frame).1 = dflt) ∧
    (∀ e, detect frame = Except.error e →
      (ThreadSafeDetector.detectWithThreadSafety jvm j tid detect dflt
        frame).1 = dflt) := by
  constructor
  · intro h
    simp [ThreadSafeDetector.detectWithThreadSafety, h]
  · intro e he
    unfold ThreadSafeDetector.detectWithThreadSafety
    by_cases h : (JNIThreadHelper.ctor jvm j tid).1.isValid = false
    · simp [h]
    · simp [h, he]

/-- Witness for C5: with a null pointer the token is invalid and the
default 7 comes back; with a valid token and an always-raising detector
the default 7 also comes back. -/
theorem C5_guarded_call_no_propagation_witness :
    ((JNIThreadHelper.ctor 0 jvmDetachedAll 0).1.isValid = false ∧
     (ThreadSafeDetector.detectWithThreadSafety 0 jvmDetachedAll 0
        detectFail 7 5).1 = 7) ∧
    (detectFail 5 = Except.error () ∧
     (ThreadSafeDetector.detectWithThreadSafety 1 jvmDetachedAll 0
        detectFail 7 5).1 = 7) :=
  ⟨⟨rfl, (C5_guarded_call_no_propagation 0 jvmDetachedAll 0 detectFail 7 5).1
       rfl⟩,
   ⟨rfl, (C5_guarded_call_no_propagation 1 jvmDetachedAll 0 detectFail 7 5).2
       () rfl⟩⟩

/-- Claim C6: whenever the handle is set, detach requests
DetachCurrentThread from the runtime unconditionally (one more detach
request is recorded, with no guard on the attachment state), the calling
thread ends up detached, and no other thread's attachment changes. -/
theorem C6_detach_unconditional (w : World) (tid : Nat) (hg : w.g_jvm ≠ 0) :
    JNIThreadManager_detachCurrentThread w tid =
      { w with jvm := DetachCurrentThread w.jvm tid } ∧
    (JNIThreadManager_detachCurrentThread w tid).jvm.detachCalls =
      w.jvm.detachCalls + 1 ∧
    (JNIThreadManager_detachCurrentThread w tid).jvm.attached tid = false ∧
    ∀ t, t ≠ tid →
      (JNIThreadManager_detachCurrentThread w tid).jvm.attached t =
        w.jvm.attached t := by
  refine ⟨?_, ?_, ?_, ?_⟩
  · simp [JNIThreadManager_detachCurrentThread, hg]
  · simp [JNIThreadManager_detachCurrentThread, DetachCurrentThread, hg]
  · simp [JNIThreadManager_detachCurrentThread, DetachCurrentThread, hg]
  · intro t ht
    simp [JNIThreadManager_detachCurrentThread, DetachCurrentThread, hg, ht]

/-- Witness for C6 at the sample detached world (the thread is not even
attached), thread 0. -/
theorem C6_detach_unconditional_witness :
    worldDetached.g_jvm ≠ 0 ∧
    (JNIThreadManager_detachCurrentThread worldDetached 0 =
      { worldDetached with jvm := DetachCurrentThread worldDetached.jvm 0 } ∧
     (JNIThreadManager_detachCurrentThread worldDetached 0).jvm.detachCalls =
       worldDetached.jvm.detachCalls + 1 ∧
     (JNIThreadManager_detachCurrentThread worldDetached 0).jvm.attached 0 =
       false ∧
     ∀ t, t ≠ 0 →
       (JNIThreadManager_detachCurrentThread worldDetached 0).jvm.attached t =
         worldDetached.jvm.attached t) :=
  ⟨by decide, C6_detach_unconditional worldDetached 0 (by decide)⟩

/-- Claim C7: when the handle is set, the thread is detached and the
runtime rejects the attachment request, attach returns false and leaves
the handle and every thread's attachment state exactly as before. -/
theorem C7_attach_rejected (w : World) (tid : Nat)
    (hg : w.g_jvm ≠ 0) (hv : w.jvm.supportsVersion JNI_VERSION_1_6 = true)
    (hdet : w.jvm.attached tid = false)
    (hrej : w.jvm.acceptAttach = false) :
    (JNIThreadManager_attachCurrentThread w tid).1 = false ∧
    (JNIThreadManager_attachCurrentThread w tid).2.g_jvm = w.g_jvm ∧
    ∀ t, (JNIThreadManager_attachCurrentThread w tid).2.jvm.attached t =
      w.jvm.attached t := by
  refine ⟨?_, ?_, ?_⟩ <;>
    simp [JNIThreadManager_attachCurrentThread, GetEnv, AttachCurrentThread,
          hg, hv, hdet, hrej, JNI_OK, JNI_ERR, JNI_EDETACHED, JNI_EVERSION]

/-- Witness for C7 at the sample rejecting world, thread 0. -/
theorem C7_attach_rejected_witness :
    worldRejecting.g_jvm ≠ 0 ∧
    worldRejecting.jvm.supportsVersion JNI_VERSION_1_6 = true ∧
    worldRejecting.jvm.attached 0 = false ∧
    worldRejecting.jvm.acceptAttach = false ∧
    ((JNIThreadManager_attachCurrentThread worldRejecting 0).1 = false ∧
     (JNIThreadManager_attachCurrentThread worldRejecting 0).2.g_jvm =
       worldRejecting.g_jvm ∧
     ∀ t, (JNIThreadManager_attachCurrentThread worldRejecting 0).2.jvm.attached t =
       worldRejecting.jvm.attached t) :=
  ⟨by decide, rfl, rfl, rfl,
   C7_attach_rejected worldRejecting 0 (by decide) rfl rfl rfl⟩

/-- Claim C8: JNI_OnLoad stores the received runtime-handle value in the
process-wide g_jvm and returns the version token JNI_VERSION_1_6; with a
non-null handle value the handle is set afterwards, and no other operation
of the module (attach or detach; the query is a pure function) ever
changes g_jvm. -/
theorem C8_onload_stores_handle (w : World) (vm : Nat) (hvm : vm ≠ 0) :
    (JNI_OnLoad w vm).1 = JNI_VERSION_1_6 ∧
    (JNI_OnLoad w vm).2.g_jvm = vm ∧
    (JNI_OnLoad w vm).2.g_jvm ≠ 0 ∧
    (∀ w1 tid, (JNIThreadManager_attachCurrentThread w1 tid).2.g_jvm =
      w1.g_jvm) ∧
    (∀ w1 tid, (JNIThreadManager_detachCurrentThread w1 tid).g_jvm =
      w1.g_jvm) := by
  refine ⟨rfl, rfl, hvm, ?_, ?_⟩
  · intro w1 tid
    exact attach_preserves_g_jvm w1 tid
  · intro w1 tid
    exact detach_preserves_g_jvm w1 tid

/-- Witness for C8 at the unloaded sample world with handle value 1. -/
theorem C8_onload_stores_handle_witness :
    (1 : Nat) ≠ 0 ∧
    ((JNI_OnLoad worldUnloaded 1).1 = JNI_VERSION_1_6 ∧
     (JNI_OnLoad worldUnloaded 1).2.g_jvm = 1 ∧
     (JNI_OnLoad worldUnloaded 1).2.g_jvm ≠ 0 ∧
     (∀ w1 tid, (JNIThreadManager_attachCurrentThread w1 tid).2.g_jvm =
       w1.g_jvm) ∧
     (∀ w1 tid, (JNIThreadManager_detachCurrentThread w1 tid).g_jvm =
       w1.g_jvm)) :=
  ⟨by decide, C8_onload_stores_handle worldUnloaded 1 (by decide)⟩

/-- Claim C9 (implicit): whenever the handle is set and GetEnv answers
anything other than JNI_EDETACHED — including error codes such as
JNI_EVERSION — attach returns true while leaving the whole state
untouched, so no attach request reaches the runtime; true from attach thus
does not imply that the attach path ran or that the thread is attached. -/
theorem C9_true_without_attach (w : World) (tid : Nat)
    (hg : w.g_jvm ≠ 0)
    (hne : GetEnv w.jvm tid JNI_VERSION_1_6 ≠ JNI_EDETACHED) :
    JNIThreadManager_attachCurrentThread w tid = (true, w) := by
  simp [JNIThreadManager_attachCurrentThread, hg, hne]

/-- Witness for C9 at the sample world whose runtime does not support the
version: GetEnv answers JNI_EVERSION, attach returns true, the state is
untouched, yet thread 0 is not attached and no attach request was made. -/
theorem C9_true_without_attach_witness :
    worldNoVersion.g_jvm ≠ 0 ∧
    GetEnv worldNoVersion.jvm 0 JNI_VERSION_1_6 ≠ JNI_EDETACHED ∧
    JNIThreadManager_attachCurrentThread worldNoVersion 0 =
      (true, worldNoVersion) ∧
    worldNoVersion.jvm.attached 0 = false ∧
    worldNoVersion.jvm.attachCalls = 0 :=
  ⟨by decide, by decide,
   C9_true_without_attach worldNoVersion 0 (by decide) (by decide),
   rfl, rfl⟩

/-- Claim C10 (implicit): the runtime handle g_jvm is written only by
JNI_OnLoad; attach and detach leave it unchanged on every input, and the
query is a pure function of the state (it returns only a boolean), so all
three operations preserve the handle. -/
theorem C10_handle_written_only_by_onload (w : World) (tid : Nat) :
    (JNIThreadManager_attachCurrentThread w tid).2.g_jvm = w.g_jvm ∧
    (JNIThreadManager_detachCurrentThread w tid).g_jvm = w.g_jvm :=
  ⟨attach_preserves_g_jvm w tid, detach_preserves_g_jvm w tid⟩
